import Mathlib

/-!
Verification of the MPS (Message Processing Stack) writer and Layer 3
message layer of the mbedtls repository.

The development shallowly embeds the C sources
  library/mps/writer.c   (raw writer and extended writer state machines)
  library/mps/layer3.c   (message-layer parsing and dispatch)
into Lean.  Machine integers of type mbedtls_mps_size_t are modelled as
Nat; every unsigned subtraction performed by the C code is guarded (by a
preceding comparison or by the state invariant WriterInv below) so that
truncated Nat subtraction agrees with the C unsigned subtraction on all
states the theorems quantify over.  Byte buffers are modelled as total
functions Nat → Nat; a memcpy is a pointwise overlay.  Null pointers are
modelled by Option.
-/

namespace MPS

/-- Result codes of the writer and Layer 3 operations.  The concrete
numeric values from writer.h and the MPS error headers are irrelevant to
the claims; only their distinctness matters, so they are modelled as an
inductive type.  readerOutOfData stands for MBEDTLS_ERR_READER_OUT_OF_DATA,
outOfData for MBEDTLS_ERR_WRITER_OUT_OF_DATA. -/
inductive Res where
  | ok
  | dataLeft
  | invalidArg
  | needMore
  | operationUnexpected
  | outOfData
  | boundsViolation
  | tooManyGroups
  | readerOutOfData
  | unfinishedHsMsg
  | invalidContent
  | retry
  | internalError
  deriving DecidableEq, Repr

/-- Byte buffers are total functions from offsets to byte values. -/
def Buf : Type := Nat → Nat

/-- Overlay semantics of memcpy( dst + dstOff, src + srcOff, n ). -/
def memcpy (dst : Buf) (dstOff : Nat) (src : Buf) (srcOff n : Nat) : Buf :=
  fun i => if dstOff ≤ i ∧ i < dstOff + n then src (srcOff + (i - dstOff)) else dst i

/-- The two states of a raw writer (writer.h, MBEDTLS_WRITER_PROVIDING and
MBEDTLS_WRITER_CONSUMING). -/
inductive WriterState where
  | providing
  | consuming
  deriving DecidableEq, Repr

/-- The mbedtls_writer structure (writer.h).  The C field end is named
end_ here because end is a Lean keyword.  The out and queue pointers are
Option-valued buffers; none models NULL. -/
structure Writer where
  state : WriterState
  out : Option Buf
  queue : Option Buf
  out_len : Nat
  queue_len : Nat
  committed : Nat
  end_ : Nat
  queue_next : Nat
  queue_remaining : Nat

/-- mbedtls_writer_init (writer.c). -/
def mbedtls_writer_init (queue : Option Buf) (queue_len : Nat) : Writer :=
  { state := .providing
    out := none
    queue := queue
    out_len := 0
    queue_len := queue_len
    committed := 0
    end_ := 0
    queue_next := 0
    queue_remaining := 0 }

/-- mbedtls_writer_feed (writer.c).  Returns the result code, the updated
writer, and the contents of the provided buffer after the copy from the
queue (the copy happens before the NEED_MORE check, so the buffer is
modified even on that failure).  The state-validation macro failure is
modelled as operationUnexpected. -/
def mbedtls_writer_feed (wr : Writer) (buf : Buf) (buf_len : Nat) :
    Res × Writer × Buf :=
  if wr.state ≠ .providing then (.operationUnexpected, wr, buf)
  else
    match wr.queue with
    | some q =>
        let qr := wr.queue_remaining
        let qa := wr.queue_next
        let copy_from_queue := min qr buf_len
        let buf' := memcpy buf 0 q qa copy_from_queue
        if 0 < qr - copy_from_queue then
          (.needMore,
           { wr with
               queue_remaining := qr - copy_from_queue
               queue_next := qa + copy_from_queue },
           buf')
        else
          (.ok,
           { wr with
               queue_next := 0
               queue_remaining := 0
               out := some buf'
               out_len := buf_len
               committed := copy_from_queue
               end_ := copy_from_queue
               state := .consuming },
           buf')
    | none =>
        (.ok,
         { wr with
             out := some buf
             out_len := buf_len
             committed := 0
             end_ := 0
             state := .consuming },
         buf)

/-- mbedtls_writer_reclaim (writer.c).  The two Nat results are the values
stored through the olen and queued output pointers (for a caller passing
non-NULL pointers).  In the branch committed ≤ out_len the code first
stores 0 to queued and, on success, overwrites it with queue_remaining. -/
def mbedtls_writer_reclaim (wr : Writer) (force : Bool) :
    Res × Writer × Nat × Nat :=
  if wr.state ≠ .consuming then (.operationUnexpected, wr, 0, 0)
  else
    let commit := wr.committed
    let ol := wr.out_len
    if commit ≤ ol then
      if commit < ol ∧ force = false then
        (.dataLeft, { wr with queue_next := 0, end_ := commit }, commit, 0)
      else
        (.ok,
         { wr with
             queue_next := 0
             end_ := 0
             committed := 0
             out := none
             out_len := 0
             state := .providing },
         commit, wr.queue_remaining)
    else
      (.ok,
       { wr with
           queue_remaining := commit - ol
           end_ := 0
           committed := 0
           out := none
           out_len := 0
           state := .providing },
       ol, commit - ol)

/-- Pointers handed out by mbedtls_writer_get: an offset into the output
buffer or an offset into the queue. -/
inductive Ptr where
  | outPtr (off : Nat)
  | queuePtr (off : Nat)
  deriving DecidableEq, Repr

/-- mbedtls_writer_get (writer.c).  hasBuflen records whether the caller
passed a non-NULL buflen pointer (buflen == NULL means the caller demands
the exact requested size).  On success the returned pair is the buffer
pointer and the served length; none is returned on the error paths, where
the C code leaves the output parameters unwritten.  The C overflow check
end + desired < end is translated literally; on Nat it never fires. -/
def mbedtls_writer_get (wr : Writer) (desired : Nat) (hasBuflen : Bool) :
    Res × Writer × Option (Ptr × Nat) :=
  if wr.state ≠ .consuming then (.operationUnexpected, wr, none)
  else
    let end_ := wr.end_
    let ol := wr.out_len
    if ol < end_ then
      let ql := wr.queue_len
      let qn := wr.queue_next
      let qo := qn + (end_ - ol)
      if ql - qo < desired ∧ hasBuflen = false then (.outOfData, wr, none)
      else
        let d := min desired (ql - qo)
        (.ok, { wr with end_ := end_ + d }, some (.queuePtr qo, d))
    else
      let or_ := ol - end_
      if or_ < desired then
        let ql := wr.queue_len
        if wr.queue.isSome ∧ or_ < ql then
          let d := if hasBuflen ∧ ql < desired then ql else desired
          if end_ + d < end_ ∨ ql < d then (.outOfData, wr, none)
          else
            (.ok, { wr with end_ := end_ + d, queue_next := or_ },
             some (.queuePtr 0, d))
        else
          if hasBuflen = false then (.outOfData, wr, none)
          else (.ok, { wr with end_ := end_ + or_ }, some (.outPtr end_, or_))
      else
        (.ok, { wr with end_ := end_ + desired }, some (.outPtr end_, desired))

/-- The C function mbedtls_writer_commit_partial (writer.c); the Lean
name carries a trailing apostrophe.  The parameter omit is named
omt because omit is a Lean keyword.  The guard omit > end - committed is C
unsigned subtraction; it agrees with the Nat form end_ - committed < omt on
every state with committed ≤ end_ (part of WriterInv).  In the copy branch
the code dereferences the out and queue pointers; that branch requires
end_ > out_len, which under WriterInv implies both are non-NULL, and the
model uses a zero buffer as a dummy for the impossible NULL case. -/
def mbedtls_writer_commit_partial' (wr : Writer) (omt : Nat) : Res × Writer :=
  if wr.state ≠ .consuming then (.operationUnexpected, wr)
  else
    let queue_overlap := wr.queue_next
    let commit := wr.committed
    let end_ := wr.end_
    let out_len := wr.out_len
    if end_ - commit < omt then (.invalidArg, wr)
    else
      let to_be_committed := end_ - omt
      let wr1 :=
        if out_len < end_ ∧ commit < out_len ∧
            out_len - queue_overlap < to_be_committed then
          let copy_from_queue :=
            min (to_be_committed - (out_len - queue_overlap)) queue_overlap
          let q := wr.queue.getD (fun _ => 0)
          let o := wr.out.getD (fun _ => 0)
          { wr with
              out := some (memcpy o (out_len - queue_overlap) q 0 copy_from_queue) }
        else wr
      let wr2 := if to_be_committed < out_len then { wr1 with queue_next := 0 } else wr1
      (.ok, { wr2 with end_ := to_be_committed, committed := to_be_committed })

/-- mbedtls_writer_commit (writer.c). -/
def mbedtls_writer_commit (wr : Writer) : Res × Writer :=
  mbedtls_writer_commit_partial' wr 0

/-- Invariant of reachable writer states.  The consuming part strengthens
the documented invariant just enough to be inductive: queue_next never
exceeds out_len, the queue bytes pending beyond the output buffer fit in
the queue, and no data is pending dispatch while consuming.  Note the
consuming clause uses the strict bound end_ < out_len → queue_next = 0:
the non-strict version claimed by the specification is not preserved by
the partial-commit operation (see the counterexample for claim C4). -/
def WriterInv (wr : Writer) : Prop :=
  match wr.state with
  | .providing =>
      wr.out = none ∧ wr.out_len = 0 ∧ wr.end_ = 0 ∧ wr.committed = 0 ∧
      wr.queue_next + wr.queue_remaining ≤ wr.queue_len ∧
      (wr.queue = none → wr.queue_next = 0 ∧ wr.queue_remaining = 0)
  | .consuming =>
      wr.out.isSome ∧ wr.queue_remaining = 0 ∧
      wr.committed ≤ wr.end_ ∧
      wr.queue_next ≤ wr.out_len ∧
      wr.end_ ≤ wr.out_len + wr.queue_len ∧
      (wr.end_ < wr.out_len → wr.queue_next = 0) ∧
      (wr.out_len < wr.end_ →
          wr.queue_next + (wr.end_ - wr.out_len) ≤ wr.queue_len ∧ wr.queue.isSome) ∧
      (wr.queue = none → wr.end_ ≤ wr.out_len ∧ wr.queue_next = 0)

theorem writer_init_inv (queue : Option Buf) (queue_len : Nat) :
    WriterInv (mbedtls_writer_init queue queue_len) := by
  simp [WriterInv, mbedtls_writer_init]

theorem writer_feed_inv (wr : Writer) (buf : Buf) (n : Nat) (h : WriterInv wr) :
    WriterInv (mbedtls_writer_feed wr buf n).2.1 := by
  obtain ⟨st, out, qu, ol, ql, cm, en, qn, qr⟩ := wr
  cases st
  · cases qu with
    | none =>
        simp only [WriterInv] at h ⊢
        simp only [mbedtls_writer_feed] at *
        simp_all
    | some q =>
        simp only [WriterInv] at h ⊢
        simp only [mbedtls_writer_feed] at *
        split_ifs with h1 <;> simp_all <;> omega
  · simp only [WriterInv] at h ⊢
    simp only [mbedtls_writer_feed]
    simp_all

theorem writer_get_inv (wr : Writer) (desired : Nat) (hb : Bool)
    (h : WriterInv wr) : WriterInv (mbedtls_writer_get wr desired hb).2.1 := by
  obtain ⟨st, out, qu, ol, ql, cm, en, qn, qr⟩ := wr
  cases st
  · simp only [WriterInv] at h ⊢
    simp only [mbedtls_writer_get]
    simp_all
  · simp only [WriterInv] at h ⊢
    obtain ⟨h1, h2, h3, h4, h5, h6, h7, h8⟩ := h
    simp only [mbedtls_writer_get]
    split_ifs
    all_goals simp_all
    all_goals (try omega)
    all_goals (cases qu <;> simp_all <;> omega)

theorem writer_commit_partial_inv (wr : Writer) (omt : Nat)
    (h : WriterInv wr) : WriterInv (mbedtls_writer_commit_partial' wr omt).2 := by
  obtain ⟨st, out, qu, ol, ql, cm, en, qn, qr⟩ := wr
  cases st
  · simp only [WriterInv] at h ⊢
    simp only [mbedtls_writer_commit_partial']
    simp_all
  · simp only [WriterInv] at h ⊢
    simp only [mbedtls_writer_commit_partial']
    split_ifs <;> simp_all <;> cases qu <;> simp_all <;> omega

theorem writer_reclaim_inv (wr : Writer) (force : Bool)
    (h : WriterInv wr) : WriterInv (mbedtls_writer_reclaim wr force).2.1 := by
  obtain ⟨st, out, qu, ol, ql, cm, en, qn, qr⟩ := wr
  cases st
  · simp only [WriterInv] at h ⊢
    simp only [mbedtls_writer_reclaim]
    simp_all
  · simp only [WriterInv] at h ⊢
    simp only [mbedtls_writer_reclaim]
    split_ifs <;> simp_all <;> cases qu <;> simp_all <;> omega

/-- One user-visible operation on a raw writer, with its arguments. -/
inductive WOp where
  | feed (buf : Buf) (len : Nat)
  | get (desired : Nat) (hasBuflen : Bool)
  | commitPartial (omt : Nat)
  | reclaim (force : Bool)

/-- The writer state after executing one operation (whether it succeeded
or returned a flow-control or argument error: the C functions always leave
the writer in the state described by their model). -/
def wstep (wr : Writer) (op : WOp) : Writer :=
  match op with
  | .feed b l => (mbedtls_writer_feed wr b l).2.1
  | .get d h => (mbedtls_writer_get wr d h).2.1
  | .commitPartial o => (mbedtls_writer_commit_partial' wr o).2
  | .reclaim f => (mbedtls_writer_reclaim wr f).2.1

/-- The writer state after a whole sequence of operations. -/
def wrun (wr : Writer) (ops : List WOp) : Writer := ops.foldl wstep wr

theorem wstep_inv (wr : Writer) (op : WOp) (h : WriterInv wr) :
    WriterInv (wstep wr op) := by
  cases op with
  | feed b l => exact writer_feed_inv wr b l h
  | get d hb => exact writer_get_inv wr d hb h
  | commitPartial o => exact writer_commit_partial_inv wr o h
  | reclaim f => exact writer_reclaim_inv wr f h

theorem wrun_inv (wr : Writer) (ops : List WOp) (h : WriterInv wr) :
    WriterInv (wrun wr ops) := by
  induction ops generalizing wr with
  | nil => exact h
  | cons op ops ih => exact ih (wstep wr op) (wstep_inv wr op h)

/-- First step of the run refuting claim C4 as stated: feed a 10-byte
buffer to a writer with a 20-byte queue. -/
def c4cx1 : Res × Writer × Buf :=
  mbedtls_writer_feed (mbedtls_writer_init (some (fun _ => 0)) 20) (fun _ => 0) 10

/-- Second step: fetch 5 bytes, served from the output buffer. -/
def c4cx2 : Res × Writer × Option (Ptr × Nat) :=
  mbedtls_writer_get c4cx1.2.1 5 true

/-- Third step: fetch 10 more bytes; the writer transitions to serving
from the queue and records queue_next = 5. -/
def c4cx3 : Res × Writer × Option (Ptr × Nat) :=
  mbedtls_writer_get c4cx2.2.1 10 true

/-- Fourth step: commit all but 5 bytes, so that the new commit value
lands exactly on out_len; the code resets queue_next only when the new
commit value is strictly below out_len. -/
def c4cx4 : Res × Writer :=
  mbedtls_writer_commit_partial' c4cx3.2.1 5

/-- C4 counterexample: a concrete sequence of four successful operations
(feed, get, get, commit_partial) after which the writer is consuming with
end_ = out_len = 10 and queue_next = 5, refuting the claimed invariant
conjunct (end_ ≤ out_len → queue_next = 0). -/
theorem claim_C4_counterexample :
    c4cx1.1 = .ok ∧ c4cx2.1 = .ok ∧ c4cx3.1 = .ok ∧ c4cx4.1 = .ok ∧
    c4cx4.2.state = .consuming ∧ c4cx4.2.end_ ≤ c4cx4.2.out_len ∧
    c4cx4.2.queue_next ≠ 0 := by
  decide

/-- C4 (amended): along every sequence of writer operations started from
an initialized writer, whenever the writer is in consuming state it
satisfies committed ≤ end_ ≤ out_len + queue_len, queue_next = 0 whenever
end_ is strictly below out_len (the claimed non-strict bound fails, see
the counterexample), and end_ ≤ out_len whenever the queue is NULL. -/
theorem claim_C4 (queue : Option Buf) (queue_len : Nat) (ops : List WOp)
    (hc : (wrun (mbedtls_writer_init queue queue_len) ops).state = .consuming) :
    (wrun (mbedtls_writer_init queue queue_len) ops).committed
        ≤ (wrun (mbedtls_writer_init queue queue_len) ops).end_ ∧
    (wrun (mbedtls_writer_init queue queue_len) ops).end_
        ≤ (wrun (mbedtls_writer_init queue queue_len) ops).out_len
          + (wrun (mbedtls_writer_init queue queue_len) ops).queue_len ∧
    ((wrun (mbedtls_writer_init queue queue_len) ops).end_
        < (wrun (mbedtls_writer_init queue queue_len) ops).out_len →
      (wrun (mbedtls_writer_init queue queue_len) ops).queue_next = 0) ∧
    ((wrun (mbedtls_writer_init queue queue_len) ops).queue = none →
      (wrun (mbedtls_writer_init queue queue_len) ops).end_
        ≤ (wrun (mbedtls_writer_init queue queue_len) ops).out_len) := by
  have h := wrun_inv (mbedtls_writer_init queue queue_len) ops
    (writer_init_inv queue queue_len)
  simp only [WriterInv, hc] at h
  exact ⟨h.2.2.1, h.2.2.2.2.1, h.2.2.2.2.2.1, fun hn => (h.2.2.2.2.2.2.2 hn).1⟩

/-- Witness for C4 at a concrete input: a writer with no queue fed a
4-byte buffer. -/
theorem claim_C4_witness :
    (wrun (mbedtls_writer_init none 5) [.feed (fun _ => 0) 4]).committed
        ≤ (wrun (mbedtls_writer_init none 5) [.feed (fun _ => 0) 4]).end_ ∧
    (wrun (mbedtls_writer_init none 5) [.feed (fun _ => 0) 4]).end_
        ≤ (wrun (mbedtls_writer_init none 5) [.feed (fun _ => 0) 4]).out_len
          + (wrun (mbedtls_writer_init none 5) [.feed (fun _ => 0) 4]).queue_len ∧
    ((wrun (mbedtls_writer_init none 5) [.feed (fun _ => 0) 4]).end_
        < (wrun (mbedtls_writer_init none 5) [.feed (fun _ => 0) 4]).out_len →
      (wrun (mbedtls_writer_init none 5) [.feed (fun _ => 0) 4]).queue_next = 0) ∧
    ((wrun (mbedtls_writer_init none 5) [.feed (fun _ => 0) 4]).queue = none →
      (wrun (mbedtls_writer_init none 5) [.feed (fun _ => 0) 4]).end_
        ≤ (wrun (mbedtls_writer_init none 5) [.feed (fun _ => 0) 4]).out_len) :=
  claim_C4 none 5 [.feed (fun _ => 0) 4] rfl

/-- C10: when reclaim fails with DATA_LEFT (consuming state, committed
strictly below out_len, force = 0) the writer stays consuming but is not
left unchanged: end_ is rolled back to committed, queue_next is reset to
0, the other fields are untouched, and the output parameters are still
written with olen = committed and queued = 0. -/
theorem claim_C10 (wr : Writer) (hs : wr.state = .consuming)
    (hlt : wr.committed < wr.out_len) :
    (mbedtls_writer_reclaim wr false).1 = .dataLeft ∧
    (mbedtls_writer_reclaim wr false).2.1.state = .consuming ∧
    (mbedtls_writer_reclaim wr false).2.1.end_ = wr.committed ∧
    (mbedtls_writer_reclaim wr false).2.1.queue_next = 0 ∧
    (mbedtls_writer_reclaim wr false).2.1.committed = wr.committed ∧
    (mbedtls_writer_reclaim wr false).2.1.out = wr.out ∧
    (mbedtls_writer_reclaim wr false).2.1.out_len = wr.out_len ∧
    (mbedtls_writer_reclaim wr false).2.1.queue = wr.queue ∧
    (mbedtls_writer_reclaim wr false).2.1.queue_len = wr.queue_len ∧
    (mbedtls_writer_reclaim wr false).2.1.queue_remaining = wr.queue_remaining ∧
    (mbedtls_writer_reclaim wr false).2.2.1 = wr.committed ∧
    (mbedtls_writer_reclaim wr false).2.2.2 = 0 := by
  simp [mbedtls_writer_reclaim, hs, Nat.le_of_lt hlt, hlt]

/-- Witness for C10: a concrete consuming writer with committed = 1 and
out_len = 3. -/
theorem claim_C10_witness :
    (mbedtls_writer_reclaim
        { state := .consuming, out := some (fun _ => 0), queue := none,
          out_len := 3, queue_len := 0, committed := 1, end_ := 2,
          queue_next := 0, queue_remaining := 0 } false).1 = .dataLeft ∧
    (mbedtls_writer_reclaim
        { state := .consuming, out := some (fun _ => 0), queue := none,
          out_len := 3, queue_len := 0, committed := 1, end_ := 2,
          queue_next := 0, queue_remaining := 0 } false).2.1.state = .consuming ∧
    (mbedtls_writer_reclaim
        { state := .consuming, out := some (fun _ => 0), queue := none,
          out_len := 3, queue_len := 0, committed := 1, end_ := 2,
          queue_next := 0, queue_remaining := 0 } false).2.1.end_ = 1 ∧
    (mbedtls_writer_reclaim
        { state := .consuming, out := some (fun _ => 0), queue := none,
          out_len := 3, queue_len := 0, committed := 1, end_ := 2,
          queue_next := 0, queue_remaining := 0 } false).2.2.1 = 1 ∧
    (mbedtls_writer_reclaim
        { state := .consuming, out := some (fun _ => 0), queue := none,
          out_len := 3, queue_len := 0, committed := 1, end_ := 2,
          queue_next := 0, queue_remaining := 0 } false).2.2.2 = 0 := by
  have h := claim_C10
    { state := .consuming, out := some (fun _ => 0), queue := none,
      out_len := 3, queue_len := 0, committed := 1, end_ := 2,
      queue_next := 0, queue_remaining := 0 } rfl (by decide)
  exact ⟨h.1, h.2.1, h.2.2.1, h.2.2.2.2.2.2.2.2.2.2.1, h.2.2.2.2.2.2.2.2.2.2.2⟩

/-- C2: a successful reclaim on a reachable consuming writer reports
olen + queued = committed; when committed ≤ out_len it reports
olen = committed and queued = 0, when committed > out_len it reports
olen = out_len and queued = committed - out_len while storing
queue_remaining = committed - out_len; on every success the writer enters
providing state with end_, committed, out, out_len reset. -/
theorem claim_C2 (wr : Writer) (force : Bool) (hinv : WriterInv wr)
    (hs : wr.state = .consuming)
    (hok : (mbedtls_writer_reclaim wr force).1 = .ok) :
    (mbedtls_writer_reclaim wr force).2.2.1
        + (mbedtls_writer_reclaim wr force).2.2.2 = wr.committed ∧
    (wr.committed ≤ wr.out_len →
        (mbedtls_writer_reclaim wr force).2.2.1 = wr.committed ∧
        (mbedtls_writer_reclaim wr force).2.2.2 = 0) ∧
    (wr.out_len < wr.committed →
        (mbedtls_writer_reclaim wr force).2.2.1 = wr.out_len ∧
        (mbedtls_writer_reclaim wr force).2.2.2 = wr.committed - wr.out_len ∧
        (mbedtls_writer_reclaim wr force).2.1.queue_remaining
            = wr.committed - wr.out_len) ∧
    (mbedtls_writer_reclaim wr force).2.1.state = .providing ∧
    (mbedtls_writer_reclaim wr force).2.1.end_ = 0 ∧
    (mbedtls_writer_reclaim wr force).2.1.committed = 0 ∧
    (mbedtls_writer_reclaim wr force).2.1.out = none ∧
    (mbedtls_writer_reclaim wr force).2.1.out_len = 0 := by
  obtain ⟨st, out, qu, ol, ql, cm, en, qn, qr⟩ := wr
  subst hs
  simp only [WriterInv] at hinv
  obtain ⟨h1, h2, h3, h4, h5, h6, h7, h8⟩ := hinv
  simp only [mbedtls_writer_reclaim] at hok ⊢
  split_ifs at hok ⊢ <;> simp_all <;> omega

/-- Witness for C2: reclaim with force on a reachable consuming writer
with committed = 2 = out_len. -/
theorem claim_C2_witness :
    (mbedtls_writer_reclaim
        { state := .consuming, out := some (fun _ => 0), queue := none,
          out_len := 2, queue_len := 0, committed := 2, end_ := 2,
          queue_next := 0, queue_remaining := 0 } true).2.2.1
      + (mbedtls_writer_reclaim
        { state := .consuming, out := some (fun _ => 0), queue := none,
          out_len := 2, queue_len := 0, committed := 2, end_ := 2,
          queue_next := 0, queue_remaining := 0 } true).2.2.2 = 2 ∧
    (mbedtls_writer_reclaim
        { state := .consuming, out := some (fun _ => 0), queue := none,
          out_len := 2, queue_len := 0, committed := 2, end_ := 2,
          queue_next := 0, queue_remaining := 0 } true).2.1.state = .providing := by
  have h := claim_C2
    { state := .consuming, out := some (fun _ => 0), queue := none,
      out_len := 2, queue_len := 0, committed := 2, end_ := 2,
      queue_next := 0, queue_remaining := 0 } true
    (by simp [WriterInv]) rfl (by decide)
  exact ⟨h.1, h.2.2.2.1⟩

/-- C1: if a consuming cycle of a reachable writer with a queue ends with
a successful reclaim reporting queued = q > 0, then a subsequent feed of a
buffer b2 of length len2 copies the pending queue bytes to the front of
b2: afterwards the first min q len2 bytes of b2 equal, in order, the queue
contents starting at offset queue_next of the previous cycle. -/
theorem claim_C1 (wr : Writer) (q b2 : Buf) (len2 : Nat) (force : Bool)
    (hinv : WriterInv wr) (hs : wr.state = .consuming) (hq : wr.queue = some q)
    (hok : (mbedtls_writer_reclaim wr force).1 = .ok)
    (hqd : 0 < (mbedtls_writer_reclaim wr force).2.2.2) :
    ∀ i < min (mbedtls_writer_reclaim wr force).2.2.2 len2,
      (mbedtls_writer_feed (mbedtls_writer_reclaim wr force).2.1 b2 len2).2.2 i
        = q (wr.queue_next + i) := by
  obtain ⟨st, out, qu, ol, ql, cm, en, qn, qr⟩ := wr
  subst hs hq
  simp only [WriterInv] at hinv
  obtain ⟨h1, h2, h3, h4, h5, h6, h7, h8⟩ := hinv
  intro i hi
  simp only [mbedtls_writer_reclaim] at hok hqd hi ⊢
  split_ifs at hok hqd hi ⊢
  all_goals try (exfalso; simp_all; done)
  all_goals
    (simp only [lt_min_iff] at hi;
     simp only [mbedtls_writer_feed];
     norm_num;
     split_ifs <;> simp [memcpy, Nat.lt_min, hi.1, hi.2])

/-- Queue contents used by the witness for C1. -/
def c1q : Buf := fun j => j + 40

/-- A reachable consuming writer used by the witness for C1: a 2-byte
output buffer was fed, 4 bytes were fetched (2 spilling into the queue)
and committed. -/
def c1w : Writer :=
  { state := .consuming, out := some (fun _ => 0), queue := some c1q,
    out_len := 2, queue_len := 10, committed := 4, end_ := 4,
    queue_next := 0, queue_remaining := 0 }

/-- Witness for C1: the first byte fed to the next 5-byte buffer equals
the first queued byte. -/
theorem claim_C1_witness :
    (mbedtls_writer_feed (mbedtls_writer_reclaim c1w false).2.1
        (fun _ => 7) 5).2.2 0 = c1q (c1w.queue_next + 0) :=
  claim_C1 c1w c1q (fun _ => 7) 5 false
    (by simp [WriterInv, c1w]) rfl rfl rfl (by decide) 0 (by decide)

/-- C5: feeding a buffer of length len to a providing writer with a queue
copies min queue_remaining len pending queue bytes into the buffer; the
call returns NEED_MORE, staying in providing state with queue_remaining
decreased and queue_next advanced by the copied amount, exactly when the
queue still holds data after the copy (queue_remaining > len); otherwise
it succeeds and enters consuming state with committed = end_ = copied
amount.  In particular, when len = queue_remaining the call succeeds. -/
theorem claim_C5 (wr : Writer) (q buf : Buf) (len : Nat)
    (hs : wr.state = .providing) (hq : wr.queue = some q) :
    ((mbedtls_writer_feed wr buf len).1 = .needMore ↔ len < wr.queue_remaining) ∧
    (len < wr.queue_remaining →
        (mbedtls_writer_feed wr buf len).2.1.state = .providing ∧
        (mbedtls_writer_feed wr buf len).2.1.queue_remaining
            = wr.queue_remaining - len ∧
        (mbedtls_writer_feed wr buf len).2.1.queue_next = wr.queue_next + len ∧
        (∀ i < len, (mbedtls_writer_feed wr buf len).2.2 i
            = q (wr.queue_next + i))) ∧
    (wr.queue_remaining ≤ len →
        (mbedtls_writer_feed wr buf len).1 = .ok ∧
        (mbedtls_writer_feed wr buf len).2.1.state = .consuming ∧
        (mbedtls_writer_feed wr buf len).2.1.committed = wr.queue_remaining ∧
        (mbedtls_writer_feed wr buf len).2.1.end_ = wr.queue_remaining ∧
        (∀ i < wr.queue_remaining, (mbedtls_writer_feed wr buf len).2.2 i
            = q (wr.queue_next + i))) ∧
    (len = wr.queue_remaining → (mbedtls_writer_feed wr buf len).1 = .ok) := by
  obtain ⟨st, out, qu, ol, ql, cm, en, qn, qr⟩ := wr
  subst hs hq
  simp only [mbedtls_writer_feed]
  norm_num
  constructor
  · split_ifs with h <;> simp_all <;> omega
  refine ⟨fun hlt => ?_, fun hge => ?_, fun heq => ?_⟩
  · rw [if_pos (by omega)]
    refine ⟨rfl, by simp <;> omega, by simp <;> omega, fun i hi => ?_⟩
    simp [memcpy, hi, Nat.lt_min, Nat.le_of_lt hlt] <;> omega
  · rw [if_neg (by omega)]
    refine ⟨rfl, rfl, by simp <;> omega, by simp <;> omega, fun i hi => ?_⟩
    simp [memcpy, hi, Nat.lt_min] <;> omega
  · rw [if_neg (by omega)]

/-- Witness for C5: a providing writer with 3 queued bytes fed a 3-byte
buffer succeeds with committed = end_ = 3. -/
theorem claim_C5_witness :
    ((mbedtls_writer_feed
        { state := .providing, out := none, queue := some c1q,
          out_len := 0, queue_len := 10, committed := 0, end_ := 0,
          queue_next := 2, queue_remaining := 3 } (fun _ => 7) 3).1 = .needMore
      ↔ (3 : Nat) < 3) ∧
    ((mbedtls_writer_feed
        { state := .providing, out := none, queue := some c1q,
          out_len := 0, queue_len := 10, committed := 0, end_ := 0,
          queue_next := 2, queue_remaining := 3 } (fun _ => 7) 3).1 = .ok) := by
  have h := claim_C5
    { state := .providing, out := none, queue := some c1q,
      out_len := 0, queue_len := 10, committed := 0, end_ := 0,
      queue_next := 2, queue_remaining := 3 } c1q (fun _ => 7) 3 rfl rfl
  exact ⟨h.1, h.2.2.2 rfl⟩

/-- C3: on a consuming writer (with the invariant facts committed ≤ end_
and queue_next ≤ out_len), commit_partial fails with INVALID_ARG and
leaves the writer unchanged when omit exceeds end_ - committed; otherwise
it succeeds setting committed = end_ = old end_ - omit, and when the
commit crosses from the output buffer into the queue (old end_ > out_len,
old committed < out_len, new commit beyond out_len - queue_next) it copies
exactly min (new commit - (out_len - queue_next)) queue_next bytes from
the start of the queue into the tail of the output buffer starting at
offset out_len - queue_next, leaving all other output bytes unchanged; no
copy happens otherwise. -/
theorem claim_C3 (wr : Writer) (omt : Nat) (o q : Buf)
    (hs : wr.state = .consuming) (hout : wr.out = some o) (hq : wr.queue = some q)
    (hce : wr.committed ≤ wr.end_) (hqn : wr.queue_next ≤ wr.out_len) :
    (wr.end_ - wr.committed < omt →
        (mbedtls_writer_commit_partial' wr omt).1 = .invalidArg ∧
        (mbedtls_writer_commit_partial' wr omt).2 = wr) ∧
    (omt ≤ wr.end_ - wr.committed →
        (mbedtls_writer_commit_partial' wr omt).1 = .ok ∧
        (mbedtls_writer_commit_partial' wr omt).2.committed = wr.end_ - omt ∧
        (mbedtls_writer_commit_partial' wr omt).2.end_ = wr.end_ - omt ∧
        ((wr.out_len < wr.end_ ∧ wr.committed < wr.out_len ∧
            wr.out_len - wr.queue_next < wr.end_ - omt) →
          ∃ o2, (mbedtls_writer_commit_partial' wr omt).2.out = some o2 ∧
            (∀ i < min (wr.end_ - omt - (wr.out_len - wr.queue_next)) wr.queue_next,
                o2 (wr.out_len - wr.queue_next + i) = q i) ∧
            (∀ i, (i < wr.out_len - wr.queue_next ∨
                  wr.out_len - wr.queue_next
                    + min (wr.end_ - omt - (wr.out_len - wr.queue_next))
                        wr.queue_next ≤ i) →
                o2 i = o i)) ∧
        (¬(wr.out_len < wr.end_ ∧ wr.committed < wr.out_len ∧
            wr.out_len - wr.queue_next < wr.end_ - omt) →
          (mbedtls_writer_commit_partial' wr omt).2.out = some o)) := by
  obtain ⟨st, out, qu, ol, ql, cm, en, qn, qr⟩ := wr
  subst hs hout hq
  simp only at hce hqn ⊢
  simp only [mbedtls_writer_commit_partial', ne_eq, eq_self_iff_true,
    not_true_eq_false, if_false]
  refine ⟨fun hfail => ?_, fun hsucc => ?_⟩
  · rw [if_pos hfail]
    exact ⟨rfl, rfl⟩
  · rw [if_neg (by omega)]
    refine ⟨rfl, rfl, rfl, fun hcross => ?_, fun hnc => ?_⟩
    · rw [if_pos hcross]
      refine ⟨_, by split_ifs <;> rfl, fun i hi => ?_, fun i hi => ?_⟩
      · simp only [memcpy, Option.getD_some]
        rw [if_pos ⟨by omega, by omega⟩]
        congr 1
        omega
      · simp only [memcpy, Option.getD_some]
        rw [if_neg (by omega)]
    · rw [if_neg hnc]
      split_ifs <;> rfl

/-- Witness for C3: a crossing commit.  The writer has out_len = 2,
queue_next = 1, end_ = 4; committing everything copies 1 byte from the
start of the queue to the last output byte. -/
theorem claim_C3_witness :
    (mbedtls_writer_commit_partial'
        { state := .consuming, out := some (fun _ => 9), queue := some c1q,
          out_len := 2, queue_len := 10, committed := 0, end_ := 4,
          queue_next := 1, queue_remaining := 0 } 0).1 = .ok ∧
    (mbedtls_writer_commit_partial'
        { state := .consuming, out := some (fun _ => 9), queue := some c1q,
          out_len := 2, queue_len := 10, committed := 0, end_ := 4,
          queue_next := 1, queue_remaining := 0 } 0).2.committed = 4 := by
  have h := claim_C3
    { state := .consuming, out := some (fun _ => 9), queue := some c1q,
      out_len := 2, queue_len := 10, committed := 0, end_ := 4,
      queue_next := 1, queue_remaining := 0 } 0 (fun _ => 9) c1q
    rfl rfl rfl (by decide) (by decide)
  exact ⟨(h.2 (by decide)).1, (h.2 (by decide)).2.1⟩

/-- Modelled from the spec: MBEDTLS_MPS_SIZE_MAX is the maximal value of
mbedtls_mps_size_t (common.h is not part of the sources; the spec states
the sentinel is the max-value bit pattern, and the default storage type is
a 16-bit unsigned integer). -/
def MBEDTLS_MPS_SIZE_MAX : Nat := 65535

/-- Modelled from the spec: the UNKNOWN length sentinel equals the
max-value bit pattern MBEDTLS_MPS_SIZE_MAX. -/
def MBEDTLS_MPS_SIZE_UNKNOWN : Nat := MBEDTLS_MPS_SIZE_MAX

/-- MBEDTLS_WRITER_MAX_GROUPS (writer.h). -/
def MBEDTLS_WRITER_MAX_GROUPS : Nat := 5

/-- The extended-writer passthrough modes (writer.h,
MBEDTLS_WRITER_EXT_PASS, MBEDTLS_WRITER_EXT_HOLD,
MBEDTLS_WRITER_EXT_BLOCK). -/
inductive Passthrough where
  | pass
  | hold
  | block
  deriving DecidableEq, Repr

/-- The mbedtls_writer_ext structure (writer.h).  The underlying writer
pointer wr is Option-valued; the grp_end array is modelled as a function
(only the first MBEDTLS_WRITER_MAX_GROUPS entries are ever used). -/
structure WriterExt where
  wr : Option Writer
  grp_end : Nat → Nat
  cur_grp : Nat
  ofs_fetch : Nat
  ofs_commit : Nat
  passthrough : Passthrough

/-- mbedtls_writer_init_ext (writer.c): a zeroed structure except for
grp_end[0] = size. -/
def mbedtls_writer_init_ext (size : Nat) : WriterExt :=
  { wr := none
    grp_end := fun i => if i = 0 then size else 0
    cur_grp := 0
    ofs_fetch := 0
    ofs_commit := 0
    passthrough := .pass }

/-- mbedtls_writer_get_ext (writer.c).  Validates that a writer is
attached and that the extended writer is not blocked, checks the group
bound, delegates to mbedtls_writer_get through the wr pointer, and
advances ofs_fetch by the served length (the clamped *buflen value when
the caller passed a buflen pointer). -/
def mbedtls_writer_get_ext (we : WriterExt) (desired : Nat) (hasBuflen : Bool) :
    Res × WriterExt × Option (Ptr × Nat) :=
  match we.wr with
  | none => (.operationUnexpected, we, none)
  | some w =>
    if we.passthrough = .block then (.operationUnexpected, we, none)
    else if we.grp_end we.cur_grp - we.ofs_fetch < desired then
      (.boundsViolation, we, none)
    else
      match mbedtls_writer_get w desired hasBuflen with
      | (ret, w', outp) =>
        if ret ≠ .ok then (ret, { we with wr := some w' }, outp)
        else
          let served := if hasBuflen then (outp.map Prod.snd).getD desired
                        else desired
          (.ok, { we with wr := some w', ofs_fetch := we.ofs_fetch + served },
           outp)

/-- mbedtls_writer_commit_partial_ext (writer.c).  The omit > ofs_fetch -
ofs_commit guard is C unsigned subtraction, faithful on states with
ofs_commit ≤ ofs_fetch.  Under PASS the commit is forwarded to the
underlying writer and ofs_fetch is pulled back to the new commit offset;
under HOLD with omit > 0 the extended writer transitions to BLOCK. -/
def mbedtls_writer_commit_partial_ext (we : WriterExt) (omt : Nat) :
    Res × WriterExt :=
  match we.wr with
  | none => (.operationUnexpected, we)
  | some w =>
    if we.passthrough = .block then (.operationUnexpected, we)
    else
      let ofs_fetch := we.ofs_fetch
      if ofs_fetch - we.ofs_commit < omt then (.boundsViolation, we)
      else
        let ofs_commit := ofs_fetch - omt
        if we.passthrough = .pass then
          match mbedtls_writer_commit_partial' w omt with
          | (ret, w') =>
            if ret ≠ .ok then (ret, { we with wr := some w' })
            else
              (.ok, { we with
                        wr := some w'
                        ofs_fetch := ofs_commit
                        ofs_commit := ofs_commit })
        else
          let pt := if we.passthrough = .hold ∧ 0 < omt then Passthrough.block
                    else we.passthrough
          (.ok, { we with
                    passthrough := pt
                    ofs_fetch := ofs_fetch
                    ofs_commit := ofs_commit })

/-- mbedtls_writer_commit_ext (writer.c). -/
def mbedtls_writer_commit_ext (we : WriterExt) : Res × WriterExt :=
  mbedtls_writer_commit_partial_ext we 0

/-- mbedtls_writer_attach (writer.c). -/
def mbedtls_writer_attach (we : WriterExt) (w : Writer) (pass : Passthrough) :
    Res × WriterExt :=
  match we.wr with
  | some _ => (.operationUnexpected, we)
  | none => (.ok, { we with passthrough := pass, wr := some w })

/-- mbedtls_writer_detach (writer.c): reports the committed offset and the
number of uncommitted bytes, resets ofs_fetch to ofs_commit and clears the
writer reference. -/
def mbedtls_writer_detach (we : WriterExt) : Res × WriterExt × Nat × Nat :=
  match we.wr with
  | none => (.operationUnexpected, we, 0, 0)
  | some _ =>
      (.ok, { we with ofs_fetch := we.ofs_commit, wr := none },
       we.ofs_commit, we.ofs_fetch - we.ofs_commit)

/-- mbedtls_writer_check_done (writer.c). -/
def mbedtls_writer_check_done (we : WriterExt) : Res :=
  if 0 < we.cur_grp then .boundsViolation
  else if we.grp_end 0 ≠ MBEDTLS_MPS_SIZE_MAX ∧ we.ofs_commit ≠ we.grp_end 0 then
    .boundsViolation
  else .ok

/-- C7: for an extended writer in HOLD mode with an attached writer, a
commit_partial_ext with omit > 0 (within bounds) succeeds and transitions
the passthrough mode to BLOCK; once in BLOCK every get_ext and
commit_partial_ext call (hence also commit_ext = commit_partial_ext 0)
fails leaving the extended writer unchanged, so the transition happens at
most once; commit_partial_ext with omit = 0 under HOLD succeeds without
entering BLOCK. -/
theorem claim_C7 :
    (∀ (we : WriterExt) (w : Writer) (omt : Nat),
        we.wr = some w → we.passthrough = .hold → 0 < omt →
        omt ≤ we.ofs_fetch - we.ofs_commit →
        (mbedtls_writer_commit_partial_ext we omt).1 = .ok ∧
        (mbedtls_writer_commit_partial_ext we omt).2.passthrough = .block) ∧
    (∀ (we : WriterExt), we.passthrough = .block →
        (∀ omt : Nat,
            (mbedtls_writer_commit_partial_ext we omt).1 ≠ .ok ∧
            (mbedtls_writer_commit_partial_ext we omt).2 = we) ∧
        (∀ (d : Nat) (hb : Bool),
            (mbedtls_writer_get_ext we d hb).1 ≠ .ok ∧
            (mbedtls_writer_get_ext we d hb).2.1 = we)) ∧
    (∀ (we : WriterExt) (w : Writer),
        we.wr = some w → we.passthrough = .hold →
        (mbedtls_writer_commit_partial_ext we 0).1 = .ok ∧
        (mbedtls_writer_commit_partial_ext we 0).2.passthrough = .hold) := by
  refine ⟨fun we w omt hw hh ho hb => ?_, fun we hb => ⟨fun omt => ?_, fun d hbl => ?_⟩,
    fun we w hw hh => ?_⟩
  · simp only [mbedtls_writer_commit_partial_ext, hw, hh]
    rw [if_neg (by simp), if_neg (by omega), if_neg (by simp)]
    simp [ho]
  · simp only [mbedtls_writer_commit_partial_ext, hb]
    cases hwr : we.wr <;> simp
  · simp only [mbedtls_writer_get_ext, hb]
    cases hwr : we.wr <;> simp
  · simp only [mbedtls_writer_commit_partial_ext, hw, hh]
    rw [if_neg (by simp), if_neg (by omega), if_neg (by simp)]
    simp

/-- Extended writer used by the C7 witness: HOLD mode, 4 fetched and 1
committed byte. -/
def c7we : WriterExt :=
  { wr := some c1w
    grp_end := fun i => if i = 0 then 10 else 0
    cur_grp := 0
    ofs_fetch := 4
    ofs_commit := 1
    passthrough := .hold }

/-- Witness for C7 at concrete inputs: a held partial commit with
omit = 2 succeeds and blocks; a blocked extended writer rejects get_ext;
omit = 0 leaves HOLD. -/
theorem claim_C7_witness :
    ((mbedtls_writer_commit_partial_ext c7we 2).1 = .ok ∧
      (mbedtls_writer_commit_partial_ext c7we 2).2.passthrough = .block) ∧
    ((mbedtls_writer_get_ext { c7we with passthrough := .block } 1 true).1 ≠ .ok ∧
      (mbedtls_writer_get_ext { c7we with passthrough := .block } 1 true).2.1
        = { c7we with passthrough := .block }) ∧
    ((mbedtls_writer_commit_partial_ext c7we 0).1 = .ok ∧
      (mbedtls_writer_commit_partial_ext c7we 0).2.passthrough = .hold) :=
  ⟨claim_C7.1 c7we c1w 2 rfl rfl (by decide) (by decide),
   (claim_C7.2.1 { c7we with passthrough := .block } rfl).2 1 true,
   claim_C7.2.2 c7we c1w rfl rfl⟩

/-!  Layer 3 (layer3.c).  Incoming records are modelled by the list of
plaintext bytes the Layer 2 reader can deliver for them. -/

/-- Transport modes (TLS and DTLS). -/
inductive Mode where
  | tls
  | dtls
  deriving DecidableEq, Repr

/-- Modelled from the spec: big-endian 8-bit read of the
MPS_READ_UINT8_BE macro (the macro definition lives outside the given
sources; the wire format is fixed by section 6 of the spec and by the RFC
quotes in layer3.c).  Reading an unsigned char reduces the stored value
mod 256. -/
def readUint8BE (b : Buf) (off : Nat) : Nat := b off % 256

/-- Modelled from the spec: big-endian 16-bit read (MPS_READ_UINT16_BE). -/
def readUint16BE (b : Buf) (off : Nat) : Nat :=
  b off % 256 * 256 + b (off + 1) % 256

/-- Modelled from the spec: big-endian 24-bit read (MPS_READ_UINT24_BE). -/
def readUint24BE (b : Buf) (off : Nat) : Nat :=
  b off % 256 * 65536 + b (off + 1) % 256 * 256 + b (off + 2) % 256

/-- The parsed fields of an incoming handshake header
(mps_l3_hs_in_internal, layer3.c). -/
structure HsInInternal where
  type : Nat
  len : Nat
  seq_nr : Nat
  frag_offset : Nat
  frag_len : Nat
  deriving DecidableEq, Repr

/-- l3_parse_hs_header_dtls (layer3.c).  The reader is modelled by the
list of available record bytes; mbedtls_reader_get for 13 bytes fails
with the reader OUT_OF_DATA code when fewer are available (modelled from
the spec, the reader sources are external), and mbedtls_reader_commit
always succeeds.  Field offsets are those of the source: type 0, length
1, sequence number 4, fragment offset 7, fragment length 10. -/
def l3_parse_hs_header_dtls (avail : List Nat) : Res × HsInInternal :=
  if avail.length < 13 then (.readerOutOfData, ⟨0, 0, 0, 0, 0⟩)
  else
    let b : Buf := fun i => avail.getD i 0
    let ty := readUint8BE b 0
    let len := readUint24BE b 1
    let seq := readUint16BE b 4
    let fo := readUint24BE b 7
    let fl := readUint24BE b 10
    if len < fo + fl then (.invalidContent, ⟨ty, len, seq, fo, fl⟩)
    else (.ok, ⟨ty, len, seq, fo, fl⟩)

/-- C8: whenever the 13-byte DTLS handshake header is available, the
decoded frag_offset and frag_len are 24-bit values (so their exact sum
cannot overflow), the parse fails with INVALID_CONTENT exactly when
frag_offset + frag_len exceeds length, and headers with
frag_offset + frag_len ≤ length pass the check. -/
theorem claim_C8 (avail : List Nat) (h13 : 13 ≤ avail.length) :
    ((l3_parse_hs_header_dtls avail).2.frag_offset < 2 ^ 24 ∧
     (l3_parse_hs_header_dtls avail).2.frag_len < 2 ^ 24 ∧
     (l3_parse_hs_header_dtls avail).2.len < 2 ^ 24) ∧
    ((l3_parse_hs_header_dtls avail).1 = .invalidContent ↔
      (l3_parse_hs_header_dtls avail).2.len
        < (l3_parse_hs_header_dtls avail).2.frag_offset
          + (l3_parse_hs_header_dtls avail).2.frag_len) ∧
    ((l3_parse_hs_header_dtls avail).2.frag_offset
        + (l3_parse_hs_header_dtls avail).2.frag_len
        ≤ (l3_parse_hs_header_dtls avail).2.len →
      (l3_parse_hs_header_dtls avail).1 = .ok) := by
  simp only [l3_parse_hs_header_dtls]
  rw [if_neg (by omega)]
  simp only [readUint8BE, readUint16BE, readUint24BE]
  split_ifs with h
  all_goals refine ⟨⟨?_, ?_, ?_⟩, ?_, ?_⟩
  all_goals simp_all
  all_goals omega

/-- Witness for C8: a syntactically valid 13-byte DTLS handshake header
with length 2, fragment offset 0, fragment length 2. -/
theorem claim_C8_witness :
    ((l3_parse_hs_header_dtls
        [11, 0, 0, 2, 0, 0, 0, 0, 0, 0, 0, 2, 0]).2.frag_offset < 2 ^ 24) ∧
    ((l3_parse_hs_header_dtls
        [11, 0, 0, 2, 0, 0, 0, 0, 0, 0, 0, 2, 0]).1 = .invalidContent ↔
      (l3_parse_hs_header_dtls
        [11, 0, 0, 2, 0, 0, 0, 0, 0, 0, 0, 2, 0]).2.len
        < (l3_parse_hs_header_dtls
            [11, 0, 0, 2, 0, 0, 0, 0, 0, 0, 0, 2, 0]).2.frag_offset
          + (l3_parse_hs_header_dtls
              [11, 0, 0, 2, 0, 0, 0, 0, 0, 0, 0, 2, 0]).2.frag_len) := by
  have h := claim_C8 [11, 0, 0, 2, 0, 0, 0, 0, 0, 0, 0, 2, 0] (by decide)
  exact ⟨h.1.1, h.2.1⟩

/-- MPS_TLS_ALERT_LEVEL_FATAL (layer3.c line 69). -/
def MPS_TLS_ALERT_LEVEL_FATAL : Nat := 1

/-- MPS_TLS_ALERT_LEVEL_WARNING (layer3.c line 70). -/
def MPS_TLS_ALERT_LEVEL_WARNING : Nat := 2

/-- The parsed fields of an incoming alert (mps_l3_alert_in_internal). -/
structure AlertInInternal where
  level : Nat
  type : Nat
  deriving DecidableEq, Repr

/-- l3_parse_alert (layer3.c).  The reader is modelled by the list of
available record bytes; fetching the 2 alert bytes fails with the reader
OUT_OF_DATA code when fewer are available (modelled from the spec, the
reader sources are external). -/
def l3_parse_alert (avail : List Nat) : Res × AlertInInternal :=
  if avail.length < 2 then (.readerOutOfData, ⟨0, 0⟩)
  else
    let level := avail.getD 0 0 % 256
    let ty := avail.getD 1 0 % 256
    if level ≠ MPS_TLS_ALERT_LEVEL_FATAL ∧ level ≠ MPS_TLS_ALERT_LEVEL_WARNING then
      (.invalidContent, ⟨level, ty⟩)
    else (.ok, ⟨level, ty⟩)

/-- The MBEDTLS_MPS_MSG_ALERT branch of mps_l3_read (layer3.c lines
189-234): parse the alert; on the reader OUT_OF_DATA signal fail with
INVALID_CONTENT in DTLS mode, or release the record via mps_l2_read_done
and return RETRY in TLS mode; other parse errors propagate.  The Bool
output records whether mps_l2_read_done was called (modelled from the
spec: Layer 2 read_done itself succeeds). -/
def l3_read_alert_case (mode : Mode) (avail : List Nat) : Res × Bool :=
  match l3_parse_alert avail with
  | (res, _) =>
    if res = .readerOutOfData then
      if mode = .dtls then (.invalidContent, false)
      else (.retry, true)
    else if res ≠ .ok then (res, false)
    else (.ok, false)

/-- C9: when the underlying reader signals OUT_OF_DATA while fetching the
2-byte alert (fewer than 2 bytes available in the record), the Layer 3
read of an ALERT record fails with INVALID_CONTENT in DTLS mode without
releasing the record, and in TLS mode releases the record back to Layer 2
and returns RETRY. -/
theorem claim_C9 (mode : Mode) (avail : List Nat) (hshort : avail.length < 2) :
    (mode = .dtls → (l3_read_alert_case mode avail).1 = .invalidContent ∧
        (l3_read_alert_case mode avail).2 = false) ∧
    (mode = .tls → (l3_read_alert_case mode avail).1 = .retry ∧
        (l3_read_alert_case mode avail).2 = true) := by
  simp only [l3_read_alert_case, l3_parse_alert]
  rw [if_pos hshort]
  cases mode <;> simp

/-- Witness for C9: a 1-byte alert record in both modes. -/
theorem claim_C9_witness :
    ((l3_read_alert_case .dtls [2]).1 = .invalidContent ∧
      (l3_read_alert_case .dtls [2]).2 = false) ∧
    ((l3_read_alert_case .tls [2]).1 = .retry ∧
      (l3_read_alert_case .tls [2]).2 = true) :=
  ⟨(claim_C9 .dtls [2] (by decide)).1 rfl, (claim_C9 .tls [2] (by decide)).2 rfl⟩

/-- Handshake substates of the Layer 3 outgoing side (MPS_L3_HS_NONE,
MPS_L3_HS_ACTIVE, MPS_L3_HS_PAUSED). -/
inductive HsState3 where
  | hsNone
  | hsActive
  | hsPaused
  deriving DecidableEq, Repr

/-- Content types of the Layer 3 message state (MBEDTLS_MPS_MSG_NONE,
APP, HS, ALERT, CCS, ACK). -/
inductive MsgType where
  | msgNone
  | msgApp
  | msgHs
  | msgAlert
  | msgCcs
  | msgAck
  deriving DecidableEq, Repr

/-- The outgoing handshake bookkeeping (mps_l3_hs_out_internal,
layer3.c).  hdr is the offset, inside the output buffer of the raw
writer borrowed from Layer 2, of the bytes reserved for the handshake
header at write-start time; none models the NULL pointer after the
header has been written (or before reservation). -/
structure HsOutInternal where
  state : HsState3
  epoch : Nat
  type : Nat
  len : Nat
  seq_nr : Nat
  frag_offset : Nat
  frag_len : Nat
  hdr : Option Nat
  hdr_len : Nat

/-- The outgoing half of the Layer 3 state (l3->io.out) together with the
configured mode.  released records the writer state handed back to Layer
2 by mps_l2_write_done (modelled from the spec: write_done succeeds and
consumes the borrowed writer). -/
structure L3Out where
  mode : Mode
  state : MsgType
  hs : HsOutInternal
  wr_ext : WriterExt
  raw_out : Option Writer
  released : Option Writer

/-- The effect on the record buffer of the four header stores performed
by l3_write_hs_header_tls: type at offset hdr, length as a 24-bit
big-endian value at hdr+1 (composite of the MPS_WRITE_UINT8_BE and
MPS_WRITE_UINT24_BE macros, whose big-endian layout is modelled from the
spec wire-format tables). -/
def writeHsHdrTLS (hs : HsOutInternal) (off : Nat) (buf : Buf) : Buf :=
  fun i =>
    if i = off then hs.type % 256
    else if i = off + 1 then hs.len / 65536 % 256
    else if i = off + 2 then hs.len / 256 % 256
    else if i = off + 3 then hs.len % 256
    else buf i

/-- The effect on the record buffer of the stores performed by
l3_write_hs_header_dtls: type at hdr, length at hdr+1 (24 bit), sequence
number at hdr+4 (16 bit), fragment offset at hdr+7 (24 bit), fragment
length at hdr+10 (24 bit); all big-endian.  Offsets follow the source
(byte hdr+6 is never written). -/
def writeHsHdrDTLS (hs : HsOutInternal) (off : Nat) (buf : Buf) : Buf :=
  fun i =>
    if i = off then hs.type % 256
    else if i = off + 1 then hs.len / 65536 % 256
    else if i = off + 2 then hs.len / 256 % 256
    else if i = off + 3 then hs.len % 256
    else if i = off + 4 then hs.seq_nr / 256 % 256
    else if i = off + 5 then hs.seq_nr % 256
    else if i = off + 7 then hs.frag_offset / 65536 % 256
    else if i = off + 8 then hs.frag_offset / 256 % 256
    else if i = off + 9 then hs.frag_offset % 256
    else if i = off + 10 then hs.frag_len / 65536 % 256
    else if i = off + 11 then hs.frag_len / 256 % 256
    else if i = off + 12 then hs.frag_len % 256
    else buf i

/-- l3_write_hs_header_tls (layer3.c): with assertions enabled, fails
with INTERNAL_ERROR when the header pointer is NULL or the reserved
length is not 4; otherwise writes the TLS handshake header through the
pointer.  The record buffer is threaded explicitly. -/
def l3_write_hs_header_tls (hs : HsOutInternal) (buf : Buf) : Res × Buf :=
  match hs.hdr with
  | none => (.internalError, buf)
  | some off =>
      if hs.hdr_len ≠ 4 then (.internalError, buf)
      else (.ok, writeHsHdrTLS hs off buf)

/-- l3_write_hs_header_dtls (layer3.c): with assertions enabled, fails
with INTERNAL_ERROR when the header pointer is NULL or the reserved
length is not 13; otherwise writes the DTLS handshake header. -/
def l3_write_hs_header_dtls (hs : HsOutInternal) (buf : Buf) : Res × Buf :=
  match hs.hdr with
  | none => (.internalError, buf)
  | some off =>
      if hs.hdr_len ≠ 13 then (.internalError, buf)
      else (.ok, writeHsHdrDTLS hs off buf)

/-- l3_check_write_hs_hdr_tls (layer3.c): writes the handshake header if
it is still pending and the length is known, then clears the header
reservation.  The header bytes live in the output buffer of the raw
writer borrowed from Layer 2; a missing raw writer cannot occur when a
header reservation is pending and is mapped to INTERNAL_ERROR. -/
def l3_check_write_hs_hdr_tls (l3 : L3Out) : Res × L3Out :=
  if l3.hs.hdr ≠ none ∧ l3.hs.len ≠ MBEDTLS_MPS_SIZE_UNKNOWN then
    match l3.raw_out with
    | none => (.internalError, l3)
    | some w =>
      match l3_write_hs_header_tls l3.hs (w.out.getD (fun _ => 0)) with
      | (res, buf2) =>
        if res ≠ .ok then (res, l3)
        else
          (.ok, { l3 with
                    hs := { l3.hs with hdr := none, hdr_len := 0 }
                    raw_out := some { w with out := some buf2 } })
  else (.ok, l3)

/-- l3_check_write_hs_hdr_dtls (layer3.c): as the TLS version, but the
header is written only when both the total and the fragment length are
known. -/
def l3_check_write_hs_hdr_dtls (l3 : L3Out) : Res × L3Out :=
  if l3.hs.hdr ≠ none ∧ l3.hs.len ≠ MBEDTLS_MPS_SIZE_UNKNOWN ∧
      l3.hs.frag_len ≠ MBEDTLS_MPS_SIZE_UNKNOWN then
    match l3.raw_out with
    | none => (.internalError, l3)
    | some w =>
      match l3_write_hs_header_dtls l3.hs (w.out.getD (fun _ => 0)) with
      | (res, buf2) =>
        if res ≠ .ok then (res, l3)
        else
          (.ok, { l3 with
                    hs := { l3.hs with hdr := none, hdr_len := 0 }
                    raw_out := some { w with out := some buf2 } })
  else (.ok, l3)

/-- l3_check_write_hs_hdr (layer3.c): mode dispatch. -/
def l3_check_write_hs_hdr (l3 : L3Out) : Res × L3Out :=
  match l3.mode with
  | .tls => l3_check_write_hs_hdr_tls l3
  | .dtls => l3_check_write_hs_hdr_dtls l3

/-- The shared epilogue of mps_l3_dispatch (layer3.c): drop the raw
writer reference, hand the record back to Layer 2 via mps_l2_write_done
(modelled from the spec: it succeeds and receives the borrowed writer,
recorded in released) and leave the message state. -/
def l3_dispatch_epilogue (l3 : L3Out) : Res × L3Out :=
  (.ok, { l3 with raw_out := none, released := l3.raw_out, state := .msgNone })

/-- mps_l3_dispatch (layer3.c, with state validation and assertions
enabled).  For handshake messages: require the active substate
(assertion), require check_done on the extended writer (else
UNFINISHED_HS_MSG), detach the extended writer obtaining the committed
and uncommitted counts, reset the extended writer, resolve UNKNOWN
lengths to the committed count (total length for TLS; total and fragment
length for DTLS), write the pending handshake header, commit_partial the
uncommitted bytes on the raw writer, clear the handshake substate and run
the epilogue.  ALERT and CCS messages commit the raw writer; APP
dispatches directly; a missing raw writer in the committing branches maps
the NULL dereference to INTERNAL_ERROR (unreachable for the states the
theorems quantify over). -/
def mps_l3_dispatch (l3 : L3Out) : Res × L3Out :=
  match l3.state with
  | .msgHs =>
    if l3.hs.state ≠ .hsActive then (.internalError, l3)
    else if mbedtls_writer_check_done l3.wr_ext ≠ .ok then (.unfinishedHsMsg, l3)
    else
      match mbedtls_writer_detach l3.wr_ext with
      | (dres, we2, committed, uncommitted) =>
        if dres ≠ .ok then (dres, { l3 with wr_ext := we2 })
        else
          let l3a := { l3 with wr_ext := mbedtls_writer_init_ext 0 }
          let hs1 :=
            match l3.mode with
            | .tls =>
                { l3a.hs with
                    len := if l3a.hs.len = MBEDTLS_MPS_SIZE_UNKNOWN then committed
                           else l3a.hs.len }
            | .dtls =>
                { l3a.hs with
                    len := if l3a.hs.len = MBEDTLS_MPS_SIZE_UNKNOWN then committed
                           else l3a.hs.len
                    frag_len := if l3a.hs.frag_len = MBEDTLS_MPS_SIZE_UNKNOWN
                                then committed else l3a.hs.frag_len }
          match l3_check_write_hs_hdr { l3a with hs := hs1 } with
          | (hres, l3c) =>
            if hres ≠ .ok then (hres, l3c)
            else
              match l3c.raw_out with
              | none => (.internalError, l3c)
              | some w =>
                match mbedtls_writer_commit_partial' w uncommitted with
                | (cres, w2) =>
                  if cres ≠ .ok then (cres, { l3c with raw_out := some w2 })
                  else
                    l3_dispatch_epilogue
                      { l3c with
                          raw_out := some w2
                          hs := { l3c.hs with state := .hsNone } }
  | .msgAlert =>
    match l3.raw_out with
    | none => (.internalError, l3)
    | some w =>
      match mbedtls_writer_commit w with
      | (cres, w2) =>
        if cres ≠ .ok then (cres, { l3 with raw_out := some w2 })
        else l3_dispatch_epilogue { l3 with raw_out := some w2 }
  | .msgCcs =>
    match l3.raw_out with
    | none => (.internalError, l3)
    | some w =>
      match mbedtls_writer_commit w with
      | (cres, w2) =>
        if cres ≠ .ok then (cres, { l3 with raw_out := some w2 })
        else l3_dispatch_epilogue { l3 with raw_out := some w2 }
  | .msgApp => l3_dispatch_epilogue l3
  | .msgNone => (.operationUnexpected, l3)
  | .msgAck => (.internalError, l3)

set_option maxHeartbeats 1000000 in
theorem writeHsHdrDTLS_bytes (hs : HsOutInternal) (off : Nat) (buf : Buf) :
    writeHsHdrDTLS hs off buf off = hs.type % 256 ∧
    writeHsHdrDTLS hs off buf (off + 1) = hs.len / 65536 % 256 ∧
    writeHsHdrDTLS hs off buf (off + 2) = hs.len / 256 % 256 ∧
    writeHsHdrDTLS hs off buf (off + 3) = hs.len % 256 ∧
    writeHsHdrDTLS hs off buf (off + 4) = hs.seq_nr / 256 % 256 ∧
    writeHsHdrDTLS hs off buf (off + 5) = hs.seq_nr % 256 ∧
    writeHsHdrDTLS hs off buf (off + 7) = hs.frag_offset / 65536 % 256 ∧
    writeHsHdrDTLS hs off buf (off + 8) = hs.frag_offset / 256 % 256 ∧
    writeHsHdrDTLS hs off buf (off + 9) = hs.frag_offset % 256 ∧
    writeHsHdrDTLS hs off buf (off + 10) = hs.frag_len / 65536 % 256 ∧
    writeHsHdrDTLS hs off buf (off + 11) = hs.frag_len / 256 % 256 ∧
    writeHsHdrDTLS hs off buf (off + 12) = hs.frag_len % 256 := by
  refine ⟨?_, ?_, ?_, ?_, ?_, ?_, ?_, ?_, ?_, ?_, ?_, ?_⟩ <;>
    simp [writeHsHdrDTLS]

set_option maxHeartbeats 1000000 in
theorem writeHsHdrTLS_bytes (hs : HsOutInternal) (off : Nat) (buf : Buf) :
    writeHsHdrTLS hs off buf off = hs.type % 256 ∧
    writeHsHdrTLS hs off buf (off + 1) = hs.len / 65536 % 256 ∧
    writeHsHdrTLS hs off buf (off + 2) = hs.len / 256 % 256 ∧
    writeHsHdrTLS hs off buf (off + 3) = hs.len % 256 := by
  refine ⟨?_, ?_, ?_, ?_⟩ <;>
    simp [writeHsHdrTLS]

/-- A successful commit that does not reach into the queue (end_ within
the output buffer) only moves the end_ and committed cursors and possibly
resets queue_next. -/
theorem commit_partial_no_cross (w : Writer) (omt : Nat)
    (hst : w.state = .consuming) (hg : omt ≤ w.end_ - w.committed)
    (hnc : w.end_ ≤ w.out_len) :
    mbedtls_writer_commit_partial' w omt =
      (.ok, { w with
                queue_next := if w.end_ - omt < w.out_len then 0
                              else w.queue_next
                end_ := w.end_ - omt
                committed := w.end_ - omt }) := by
  obtain ⟨st, out, qu, ol, ql, cm, en, qn, qr⟩ := w
  subst hst
  simp only at hg hnc ⊢
  simp only [mbedtls_writer_commit_partial', ne_eq, eq_self_iff_true,
    not_true_eq_false, if_false]
  rw [if_neg (by omega)]
  split_ifs <;> first | rfl | (exfalso; omega)



/-- Dispatch of a handshake message whose extended writer fails
check_done returns UNFINISHED_HS_MSG and changes nothing. -/
theorem l3_dispatch_unfinished_spec (l3 : L3Out)
    (hstate : l3.state = .msgHs) (hhs : l3.hs.state = .hsActive)
    (hcd : mbedtls_writer_check_done l3.wr_ext ≠ .ok) :
    mps_l3_dispatch l3 = (.unfinishedHsMsg, l3) := by
  simp only [mps_l3_dispatch, hstate]
  rw [if_neg (by simp [hhs]), if_pos hcd]

/-- The DTLS handshake arm of mps_l3_dispatch on a state with unknown
total and fragment lengths. -/
theorem l3_dispatch_hs_dtls_spec (l3 : L3Out) (w0 w : Writer) (O : Buf) (off : Nat)
    (hmode : l3.mode = .dtls)
    (hstate : l3.state = .msgHs)
    (hhs : l3.hs.state = .hsActive)
    (hlen : l3.hs.len = MBEDTLS_MPS_SIZE_UNKNOWN)
    (hflen : l3.hs.frag_len = MBEDTLS_MPS_SIZE_UNKNOWN)
    (hhdr : l3.hs.hdr = some off)
    (hhlen : l3.hs.hdr_len = 13)
    (hcur : l3.wr_ext.cur_grp = 0)
    (hgrp : l3.wr_ext.grp_end 0 = MBEDTLS_MPS_SIZE_MAX)
    (hwr : l3.wr_ext.wr = some w0)
    (hcunk : l3.wr_ext.ofs_commit ≠ MBEDTLS_MPS_SIZE_UNKNOWN)
    (hraw : l3.raw_out = some w)
    (hwst : w.state = .consuming)
    (hout : w.out = some O)
    (hu : l3.wr_ext.ofs_fetch - l3.wr_ext.ofs_commit ≤ w.end_ - w.committed)
    (hel : w.end_ ≤ w.out_len) :
    (mps_l3_dispatch l3).1 = .ok ∧
    (mps_l3_dispatch l3).2.hs.len = l3.wr_ext.ofs_commit ∧
    (mps_l3_dispatch l3).2.hs.frag_len = l3.wr_ext.ofs_commit ∧
    (mps_l3_dispatch l3).2.hs.state = .hsNone ∧
    (mps_l3_dispatch l3).2.state = .msgNone ∧
    (mps_l3_dispatch l3).2.raw_out = none ∧
    ∃ w2, (mps_l3_dispatch l3).2.released = some w2 ∧
      w2.committed = w.end_ - (l3.wr_ext.ofs_fetch - l3.wr_ext.ofs_commit) ∧
      w2.end_ = w.end_ - (l3.wr_ext.ofs_fetch - l3.wr_ext.ofs_commit) ∧
      ∃ O2, w2.out = some O2 ∧
        O2 off = l3.hs.type % 256 ∧
        O2 (off + 1) = l3.wr_ext.ofs_commit / 65536 % 256 ∧
        O2 (off + 2) = l3.wr_ext.ofs_commit / 256 % 256 ∧
        O2 (off + 3) = l3.wr_ext.ofs_commit % 256 ∧
        O2 (off + 4) = l3.hs.seq_nr / 256 % 256 ∧
        O2 (off + 5) = l3.hs.seq_nr % 256 ∧
        O2 (off + 7) = l3.hs.frag_offset / 65536 % 256 ∧
        O2 (off + 8) = l3.hs.frag_offset / 256 % 256 ∧
        O2 (off + 9) = l3.hs.frag_offset % 256 ∧
        O2 (off + 10) = l3.wr_ext.ofs_commit / 65536 % 256 ∧
        O2 (off + 11) = l3.wr_ext.ofs_commit / 256 % 256 ∧
        O2 (off + 12) = l3.wr_ext.ofs_commit % 256 := by
  have hcd : mbedtls_writer_check_done l3.wr_ext = .ok := by
    simp [mbedtls_writer_check_done, hcur, hgrp]
  have hcp := commit_partial_no_cross
    { w with out := some (writeHsHdrDTLS
        { l3.hs with len := l3.wr_ext.ofs_commit, frag_len := l3.wr_ext.ofs_commit }
        off O) }
    (l3.wr_ext.ofs_fetch - l3.wr_ext.ofs_commit)
    (by simpa using hwst) (by simpa using hu) (by simpa using hel)
  simp only [hhs, hhdr, hhlen] at hcp
  simp only [mps_l3_dispatch, hstate, hmode, mbedtls_writer_detach, hwr,
    l3_check_write_hs_hdr, l3_check_write_hs_hdr_dtls, l3_write_hs_header_dtls,
    l3_dispatch_epilogue, hcd, hlen, hflen, hhdr, hhlen, hraw, hout]
  simp [hhs, hcunk, hcp]
  exact writeHsHdrDTLS_bytes _ off O



/-- The TLS handshake arm of mps_l3_dispatch on a state with unknown
total length. -/
theorem l3_dispatch_hs_tls_spec (l3 : L3Out) (w0 w : Writer) (O : Buf) (off : Nat)
    (hmode : l3.mode = .tls)
    (hstate : l3.state = .msgHs)
    (hhs : l3.hs.state = .hsActive)
    (hlen : l3.hs.len = MBEDTLS_MPS_SIZE_UNKNOWN)
    (hhdr : l3.hs.hdr = some off)
    (hhlen : l3.hs.hdr_len = 4)
    (hcur : l3.wr_ext.cur_grp = 0)
    (hgrp : l3.wr_ext.grp_end 0 = MBEDTLS_MPS_SIZE_MAX)
    (hwr : l3.wr_ext.wr = some w0)
    (hcunk : l3.wr_ext.ofs_commit ≠ MBEDTLS_MPS_SIZE_UNKNOWN)
    (hraw : l3.raw_out = some w)
    (hwst : w.state = .consuming)
    (hout : w.out = some O)
    (hu : l3.wr_ext.ofs_fetch - l3.wr_ext.ofs_commit ≤ w.end_ - w.committed)
    (hel : w.end_ ≤ w.out_len) :
    (mps_l3_dispatch l3).1 = .ok ∧
    (mps_l3_dispatch l3).2.hs.len = l3.wr_ext.ofs_commit ∧
    (mps_l3_dispatch l3).2.hs.state = .hsNone ∧
    (mps_l3_dispatch l3).2.state = .msgNone ∧
    (mps_l3_dispatch l3).2.raw_out = none ∧
    ∃ w2, (mps_l3_dispatch l3).2.released = some w2 ∧
      w2.committed = w.end_ - (l3.wr_ext.ofs_fetch - l3.wr_ext.ofs_commit) ∧
      w2.end_ = w.end_ - (l3.wr_ext.ofs_fetch - l3.wr_ext.ofs_commit) ∧
      ∃ O2, w2.out = some O2 ∧
        O2 off = l3.hs.type % 256 ∧
        O2 (off + 1) = l3.wr_ext.ofs_commit / 65536 % 256 ∧
        O2 (off + 2) = l3.wr_ext.ofs_commit / 256 % 256 ∧
        O2 (off + 3) = l3.wr_ext.ofs_commit % 256 := by
  have hcd : mbedtls_writer_check_done l3.wr_ext = .ok := by
    simp [mbedtls_writer_check_done, hcur, hgrp]
  have hcp := commit_partial_no_cross
    { w with out := some (writeHsHdrTLS
        { l3.hs with len := l3.wr_ext.ofs_commit }
        off O) }
    (l3.wr_ext.ofs_fetch - l3.wr_ext.ofs_commit)
    (by simpa using hwst) (by simpa using hu) (by simpa using hel)
  simp only [hhs, hhdr, hhlen] at hcp
  simp only [mps_l3_dispatch, hstate, hmode, mbedtls_writer_detach, hwr,
    l3_check_write_hs_hdr, l3_check_write_hs_hdr_tls, l3_write_hs_header_tls,
    l3_dispatch_epilogue, hcd, hlen, hhdr, hhlen, hraw, hout]
  simp [hhs, hcunk, hcp]
  exact writeHsHdrTLS_bytes _ off O



/-- C6: for a Layer 3 handshake dispatch, check_done on the extended
writer is required first (else the dispatch fails with UNFINISHED_HS_MSG
leaving the state unchanged); when it passes and the message length was
declared UNKNOWN at write time, the extended writer is detached yielding
the committed and uncommitted counts, the length (TLS), or both the
length and the fragment length (DTLS), is fixed to the committed count,
the handshake header is written into the bytes reserved at write-start
inside the record buffer, and commit_partial(uncommitted) is applied to
the raw writer before it is released to Layer 2 (the released writer
carries both the header bytes and the commit). -/
theorem claim_C6 :
    (∀ (l3 : L3Out), l3.state = .msgHs → l3.hs.state = .hsActive →
        mbedtls_writer_check_done l3.wr_ext ≠ .ok →
        mps_l3_dispatch l3 = (.unfinishedHsMsg, l3)) ∧
    (∀ (l3 : L3Out) (w0 w : Writer) (O : Buf) (off : Nat),
        l3.mode = .dtls → l3.state = .msgHs → l3.hs.state = .hsActive →
        l3.hs.len = MBEDTLS_MPS_SIZE_UNKNOWN →
        l3.hs.frag_len = MBEDTLS_MPS_SIZE_UNKNOWN →
        l3.hs.hdr = some off → l3.hs.hdr_len = 13 →
        l3.wr_ext.cur_grp = 0 → l3.wr_ext.grp_end 0 = MBEDTLS_MPS_SIZE_MAX →
        l3.wr_ext.wr = some w0 →
        l3.wr_ext.ofs_commit ≠ MBEDTLS_MPS_SIZE_UNKNOWN →
        l3.raw_out = some w → w.state = .consuming → w.out = some O →
        l3.wr_ext.ofs_fetch - l3.wr_ext.ofs_commit ≤ w.end_ - w.committed →
        w.end_ ≤ w.out_len →
        (mps_l3_dispatch l3).1 = .ok ∧
        (mps_l3_dispatch l3).2.hs.len = l3.wr_ext.ofs_commit ∧
        (mps_l3_dispatch l3).2.hs.frag_len = l3.wr_ext.ofs_commit ∧
        (mps_l3_dispatch l3).2.hs.state = .hsNone ∧
        (mps_l3_dispatch l3).2.state = .msgNone ∧
        (mps_l3_dispatch l3).2.raw_out = none ∧
        ∃ w2, (mps_l3_dispatch l3).2.released = some w2 ∧
          w2.committed = w.end_ - (l3.wr_ext.ofs_fetch - l3.wr_ext.ofs_commit) ∧
          w2.end_ = w.end_ - (l3.wr_ext.ofs_fetch - l3.wr_ext.ofs_commit) ∧
          ∃ O2, w2.out = some O2 ∧
            O2 off = l3.hs.type % 256 ∧
            O2 (off + 1) = l3.wr_ext.ofs_commit / 65536 % 256 ∧
            O2 (off + 2) = l3.wr_ext.ofs_commit / 256 % 256 ∧
            O2 (off + 3) = l3.wr_ext.ofs_commit % 256 ∧
            O2 (off + 4) = l3.hs.seq_nr / 256 % 256 ∧
            O2 (off + 5) = l3.hs.seq_nr % 256 ∧
            O2 (off + 7) = l3.hs.frag_offset / 65536 % 256 ∧
            O2 (off + 8) = l3.hs.frag_offset / 256 % 256 ∧
            O2 (off + 9) = l3.hs.frag_offset % 256 ∧
            O2 (off + 10) = l3.wr_ext.ofs_commit / 65536 % 256 ∧
            O2 (off + 11) = l3.wr_ext.ofs_commit / 256 % 256 ∧
            O2 (off + 12) = l3.wr_ext.ofs_commit % 256) ∧
    (∀ (l3 : L3Out) (w0 w : Writer) (O : Buf) (off : Nat),
        l3.mode = .tls → l3.state = .msgHs → l3.hs.state = .hsActive →
        l3.hs.len = MBEDTLS_MPS_SIZE_UNKNOWN →
        l3.hs.hdr = some off → l3.hs.hdr_len = 4 →
        l3.wr_ext.cur_grp = 0 → l3.wr_ext.grp_end 0 = MBEDTLS_MPS_SIZE_MAX →
        l3.wr_ext.wr = some w0 →
        l3.wr_ext.ofs_commit ≠ MBEDTLS_MPS_SIZE_UNKNOWN →
        l3.raw_out = some w → w.state = .consuming → w.out = some O →
        l3.wr_ext.ofs_fetch - l3.wr_ext.ofs_commit ≤ w.end_ - w.committed →
        w.end_ ≤ w.out_len →
        (mps_l3_dispatch l3).1 = .ok ∧
        (mps_l3_dispatch l3).2.hs.len = l3.wr_ext.ofs_commit ∧
        (mps_l3_dispatch l3).2.hs.state = .hsNone ∧
        (mps_l3_dispatch l3).2.state = .msgNone ∧
        (mps_l3_dispatch l3).2.raw_out = none ∧
        ∃ w2, (mps_l3_dispatch l3).2.released = some w2 ∧
          w2.committed = w.end_ - (l3.wr_ext.ofs_fetch - l3.wr_ext.ofs_commit) ∧
          w2.end_ = w.end_ - (l3.wr_ext.ofs_fetch - l3.wr_ext.ofs_commit) ∧
          ∃ O2, w2.out = some O2 ∧
            O2 off = l3.hs.type % 256 ∧
            O2 (off + 1) = l3.wr_ext.ofs_commit / 65536 % 256 ∧
            O2 (off + 2) = l3.wr_ext.ofs_commit / 256 % 256 ∧
            O2 (off + 3) = l3.wr_ext.ofs_commit % 256) :=
  ⟨l3_dispatch_unfinished_spec,
   fun l3 w0 w O off h1 h2 h3 h4 h5 h6 h7 h8 h9 h10 h11 h12 h13 h14 h15 h16 =>
     l3_dispatch_hs_dtls_spec l3 w0 w O off h1 h2 h3 h4 h5 h6 h7 h8 h9 h10 h11 h12 h13 h14 h15 h16,
   fun l3 w0 w O off h1 h2 h3 h4 h5 h6 h7 h8 h9 h10 h11 h12 h13 h14 h15 =>
     l3_dispatch_hs_tls_spec l3 w0 w O off h1 h2 h3 h4 h5 h6 h7 h8 h9 h10 h11 h12 h13 h14 h15⟩

/-- Raw writer borrowed from Layer 2 used by the C6 witness. -/
def c6w : Writer :=
  { state := .consuming, out := some (fun _ => 0), queue := none,
    out_len := 100, queue_len := 0, committed := 33, end_ := 33,
    queue_next := 0, queue_remaining := 0 }

/-- Extended writer used by the C6 witness: 20 bytes fetched and
committed under HOLD, total length unknown. -/
def c6weD : WriterExt :=
  { wr := some c1w
    grp_end := fun i => if i = 0 then MBEDTLS_MPS_SIZE_MAX else 0
    cur_grp := 0
    ofs_fetch := 20
    ofs_commit := 20
    passthrough := .hold }

/-- DTLS Layer 3 state used by the C6 witness. -/
def c6l3D : L3Out :=
  { mode := .dtls, state := .msgHs
    hs := { state := .hsActive, epoch := 0, type := 11,
            len := MBEDTLS_MPS_SIZE_UNKNOWN, seq_nr := 1, frag_offset := 0,
            frag_len := MBEDTLS_MPS_SIZE_UNKNOWN, hdr := some 0, hdr_len := 13 }
    wr_ext := c6weD
    raw_out := some c6w
    released := none }

/-- TLS Layer 3 state used by the C6 witness. -/
def c6l3T : L3Out :=
  { mode := .tls, state := .msgHs
    hs := { state := .hsActive, epoch := 0, type := 11,
            len := MBEDTLS_MPS_SIZE_UNKNOWN, seq_nr := 0, frag_offset := 0,
            frag_len := 0, hdr := some 0, hdr_len := 4 }
    wr_ext := c6weD
    raw_out := some c6w
    released := none }

/-- Witness for C6: concrete DTLS and TLS dispatches with unknown
lengths, plus a dispatch rejected by check_done. -/
theorem claim_C6_witness :
    mps_l3_dispatch { c6l3D with wr_ext := { c6weD with cur_grp := 1 } } =
      (.unfinishedHsMsg, { c6l3D with wr_ext := { c6weD with cur_grp := 1 } }) ∧
    ((mps_l3_dispatch c6l3D).1 = .ok ∧
      (mps_l3_dispatch c6l3D).2.hs.len = 20 ∧
      (mps_l3_dispatch c6l3D).2.hs.frag_len = 20 ∧
      (mps_l3_dispatch c6l3D).2.state = .msgNone) ∧
    ((mps_l3_dispatch c6l3T).1 = .ok ∧
      (mps_l3_dispatch c6l3T).2.hs.len = 20) := by
  have hA := claim_C6.1 { c6l3D with wr_ext := { c6weD with cur_grp := 1 } }
    rfl rfl (by decide)
  have hB := claim_C6.2.1 c6l3D c1w c6w (fun _ => 0) 0 rfl rfl rfl rfl rfl rfl
    rfl rfl rfl rfl (by decide) rfl rfl rfl (by decide) (by decide)
  have hC := claim_C6.2.2 c6l3T c1w c6w (fun _ => 0) 0 rfl rfl rfl rfl rfl rfl
    rfl rfl rfl (by decide) rfl rfl rfl (by decide) (by decide)
  exact ⟨hA, ⟨hB.1, hB.2.1, hB.2.2.1, hB.2.2.2.2.1⟩, ⟨hC.1, hC.2.1⟩⟩

end MPS
